import Mathlib

/-!
# Verification of the better-auth change-email-OTP plugin core

Shallow embedding of `src/index.ts`: the `sendChangeEmailOTP` and
`verifyChangeEmailOTP` endpoint handlers, the OTP/record helpers, and the
JavaScript string/number primitives they rely on (`String.prototype.split`,
`Number.parseInt`, template-literal number printing, `padStart`).

The external verification store (better-auth's `internalAdapter`) is modelled
as a list of records; its operations (`findVerificationValue`,
`createVerificationValue`, `updateVerificationValue`, `deleteVerificationValue`,
`deleteVerificationByIdentifier`) are modelled per their contract. External
failure behaviour (store rejections, notifier rejections) is passed in
explicitly, since the handlers `catch`/propagate any rejection.
-/

namespace ChangeEmailOtp

/-! ## JavaScript primitives -/

/-- JavaScript whitespace characters relevant to `Number.parseInt` skipping
(space, tab, newline, carriage return). -/
def jsWhitespace (c : Char) : Bool :=
  c == ' ' || c == '\t' || c == '\n' || c == '\r'

/-- Accumulate the numeric value of a big-endian list of decimal digit
characters, as `Number.parseInt` does once the digit run is isolated. -/
def digitsVal (cs : List Char) : Nat :=
  cs.foldl (fun a c => 10 * a + (c.toNat - 48)) 0

/-- Parse the leading run of decimal digits; `none` when there is no digit
(JavaScript `NaN`). -/
def parseDigits (cs : List Char) : Option Nat :=
  let ds := cs.takeWhile Char.isDigit
  if ds.isEmpty then none else some (digitsVal ds)

/-- Sign handling of `Number.parseInt(s, 10)` after whitespace skipping. -/
def parseIntChars (cs : List Char) : Option Int :=
  match cs with
  | [] => none
  | c :: rest =>
    if c == '-' then (parseDigits rest).map (fun n => -(n : Int))
    else if c == '+' then (parseDigits rest).map (fun n => (n : Int))
    else (parseDigits (c :: rest)).map (fun n => (n : Int))

/-- `Number.parseInt(s, 10)`: skip leading whitespace, optional sign, then the
longest decimal-digit prefix; `none` models `NaN`. -/
def parseIntJs (s : String) : Option Int :=
  parseIntChars (s.toList.dropWhile jsWhitespace)

/-- `Number.parseInt(x, 10)` where `x` may be `undefined` (modelled `none`):
`parseInt(undefined)` is `parseInt("undefined") = NaN`. -/
def parseIntOpt : Option String → Option Int
  | none => none
  | some s => parseIntJs s

/-- The decimal digit character for `d`. -/
def digitChar10 (d : Nat) : Char := Char.ofNat (48 + d)

/-- Little-endian base-10 digits of `n`, with explicit fuel so that the
function is structurally recursive. -/
def natDigitsAux : Nat → Nat → List Nat
  | 0, _ => []
  | _ + 1, 0 => []
  | fuel + 1, n + 1 => ((n + 1) % 10) :: natDigitsAux fuel ((n + 1) / 10)

/-- Little-endian base-10 digits of `n` (empty for 0). -/
def natDigits (n : Nat) : List Nat := natDigitsAux n n

/-- Decimal representation of a natural number, as JavaScript prints
integers. -/
def natToDecimal (n : Nat) : String :=
  if n = 0 then "0"
  else (((natDigits n).reverse).map digitChar10).asString

/-- JavaScript number-to-string for integers (`${n}` in a template literal). -/
def intToStringJs (n : Int) : String :=
  if n < 0 then "-" ++ natToDecimal n.natAbs else natToDecimal n.natAbs

/-- `${x}` where `x` is an integer-or-NaN JavaScript number. -/
def numToString : Option Int → String
  | none => "NaN"
  | some n => intToStringJs n

/-- `x + 1` on an integer-or-NaN JavaScript number (`NaN + 1 = NaN`). -/
def numAddOne : Option Int → Option Int
  | none => none
  | some n => some (n + 1)

/-- `x >= k` on an integer-or-NaN JavaScript number (`NaN >= k` is false). -/
def numGe (x : Option Int) (k : Int) : Bool :=
  match x with
  | none => false
  | some v => decide (k ≤ v)

/-- Truthiness of a possibly-`undefined` JavaScript string: `undefined` and
`""` are falsy, every other string truthy. -/
def truthyOptStr : Option String → Bool
  | none => false
  | some s => !s.isEmpty

/-- `String.prototype.split` with a one-character separator, over character
lists: `"".split(":") = [""]`, `"a:".split(":") = ["a", ""]`, etc. -/
def splitChars (sep : Char) : List Char → List (List Char)
  | [] => [[]]
  | c :: cs =>
    let rest := splitChars sep cs
    if c == sep then [] :: rest
    else
      match rest with
      | [] => [[c]]
      | r :: rs => (c :: r) :: rs

/-- `s.split(sep)` for a one-character separator. -/
def jsSplit (sep : Char) (s : String) : List String :=
  (splitChars sep s.toList).map List.asString

/-- `s.padStart(len, c)`: left-pad with `c` up to length `len`; a string at
least `len` long is returned unchanged. -/
def padStart (s : String) (len : Nat) (c : Char) : String :=
  (List.replicate (len - s.length) c).asString ++ s

/-! ## OTP helpers (`generateOtp`, `getExpirationDate`, `createOtp`) -/

/-- Modelled from the spec: `generateRandomString(length, "0-9")` from
`better-auth/crypto` is not part of this repository; per §4.1 it draws
`length` random decimal digits from a cryptographically secure source. The
random source is modelled as a supplied stream of digits (`Fin 10`), of which
the first `length` are drawn. -/
def generateRandomString (length : Nat) (randomDigits : List (Fin 10)) : String :=
  ((randomDigits.take length).map (fun d => digitChar10 d.val)).asString

/-- `generateOtp` from `src/index.ts`: draw the random string, then
`String(otp).padStart(length, "0")`. -/
def generateOtp (length : Nat) (randomDigits : List (Fin 10)) : String :=
  padStart (generateRandomString length randomDigits) length '0'

/-! ## Data model -/

/-- A record of the external verification store. `expiresAt` is an absolute
timestamp modelled as an integer (JavaScript `Date` comparison is numeric). -/
structure VerificationRecord where
  id : Nat
  identifier : String
  value : String
  expiresAt : Int
deriving DecidableEq, Repr

/-- The external verification store, modelled as the list of live records. -/
abbrev Store := List VerificationRecord

/-- `internalAdapter.findVerificationValue(identifier)`: the record stored
under `identifier`, if any. -/
def findVerificationValue (s : Store) (ident : String) : Option VerificationRecord :=
  s.find? (fun r => r.identifier == ident)

/-- `internalAdapter.deleteVerificationValue(id)`: delete by record id. -/
def deleteVerificationValue (s : Store) (i : Nat) : Store :=
  s.filter (fun r => r.id != i)

/-- `internalAdapter.deleteVerificationByIdentifier(identifier)`. -/
def deleteVerificationByIdentifier (s : Store) (ident : String) : Store :=
  s.filter (fun r => r.identifier != ident)

/-- `internalAdapter.updateVerificationValue(id, {value})`. -/
def updateVerificationValue (s : Store) (i : Nat) (newValue : String) : Store :=
  s.map (fun r => if r.id == i then { r with value := newValue } else r)

/-! ## The verify handler (`verifyChangeEmailOTP`) -/

/-- Outcome kind of the verify endpoint: the thrown error code, or success. -/
inductive VerifyResult where
  | unauthorized
  | invalidOtp
  | otpExpired
  | tooManyAttempts
  | success
deriving DecidableEq, Repr

/-- The `{email, emailVerified: true}` update passed to
`internalAdapter.updateUser(session.user.id, ...)` on success. -/
structure UserUpdate where
  userId : Nat
  email : String
  emailVerified : Bool
deriving DecidableEq, Repr

/-- Result, resulting store, and user-directory update of one verify call. -/
structure VerifyOutcome where
  result : VerifyResult
  store : Store
  userUpdate : Option UserUpdate
deriving DecidableEq, Repr

/-- The `verifyChangeEmailOTP` handler of `src/index.ts` (lines 182-248).
`session` is the session's user id (`none` when unauthenticated),
`maxAttempts` is `params.options?.maxAttempts ?? 3`, `now` is the `new Date()`
drawn at the expiry check, `email` the normalized body email, `otp` the
submitted code. -/
def verifyChangeEmailOTP (session : Option Nat) (maxAttempts now : Int)
    (email otp : String) (store : Store) : VerifyOutcome :=
  match session with
  | none => ⟨.unauthorized, store, none⟩
  | some uid =>
    let identifier := "change-email-otp-" ++ email
    match findVerificationValue store identifier with
    | none => ⟨.invalidOtp, store, none⟩
    | some v =>
      if v.expiresAt < now then ⟨.otpExpired, store, none⟩
      else
        let parts := jsSplit ':' v.value
        let storedOtp := parts.headD ""
        let storedOtpAttempts := parts[1]?
        if truthyOptStr storedOtpAttempts &&
            numGe (parseIntOpt storedOtpAttempts) maxAttempts then
          ⟨.tooManyAttempts, deleteVerificationValue store v.id, none⟩
        else if storedOtp != otp then
          ⟨.invalidOtp,
            updateVerificationValue store v.id
              (storedOtp ++ ":" ++ numToString (numAddOne (parseIntOpt storedOtpAttempts))),
            none⟩
        else
          ⟨.success, deleteVerificationValue store v.id, some ⟨uid, email, true⟩⟩

/-- Submitting the same (wrong) code `n` times in a row: each call runs the
verify handler on the store the previous call left behind, collecting the
results. -/
def runWrongSubmissions (session : Option Nat) (m now : Int) (email otp : String) :
    Nat → Store → List VerifyResult × Store
  | 0, s => ([], s)
  | n + 1, s =>
    let out := verifyChangeEmailOTP session m now email otp s
    let rest := runWrongSubmissions session m now email otp n out.store
    (out.result :: rest.1, rest.2)

/-! ## The send handler (`sendChangeEmailOTP`) -/

/-- Outcome kind of the send endpoint. `storageError e` is a rejection of the
retried `createVerificationValue` propagating uncaught; `notifierError e` is a
rejection of the caller-supplied `sendChangeEmailOTP` callback propagating
uncaught and untranslated. -/
inductive SendResult where
  | unauthorized
  | emailAlreadyExists
  | storageError (e : String)
  | notifierError (e : String)
  | success
deriving DecidableEq, Repr

/-- Externally-determined failure behaviour during one send call:
whether the first `createVerificationValue` rejects (the handler catches any
rejection), whether the retried create rejects (with which error), and whether
the notifier callback rejects (with which error). -/
structure SendBehavior where
  firstCreateFails : Bool
  secondCreate : Option String
  notifier : Option String
deriving DecidableEq, Repr

/-- Result, resulting store, and whether the notifier callback was invoked. -/
structure SendOutcome where
  result : SendResult
  store : Store
  notifierCalled : Bool
deriving DecidableEq, Repr

/-- The `sendChangeEmailOTP` handler of `src/index.ts` (lines 98-138).
`session` is the session's user id, `userDirectory` models
`internalAdapter.findUserByEmail`, `otp`/`expiresAt` are the values produced by
`createOtp`, `freshId` the id the store assigns to a created record, `b` the
external failure behaviour. -/
def sendChangeEmailOTP (session : Option Nat) (userDirectory : String → Option Nat)
    (otp : String) (expiresAt : Int) (email : String) (freshId : Nat)
    (b : SendBehavior) (store : Store) : SendOutcome :=
  let identifier := "change-email-otp-" ++ email
  match session with
  | none => ⟨.unauthorized, store, false⟩
  | some _ =>
    match userDirectory email with
    | some _ => ⟨.emailAlreadyExists, store, false⟩
    | none =>
      let newRecord : VerificationRecord := ⟨freshId, identifier, otp ++ ":0", expiresAt⟩
      if b.firstCreateFails then
        let store1 := deleteVerificationByIdentifier store identifier
        match b.secondCreate with
        | some e => ⟨.storageError e, store1, false⟩
        | none =>
          let store2 := store1 ++ [newRecord]
          match b.notifier with
          | some e => ⟨.notifierError e, store2, true⟩
          | none => ⟨.success, store2, true⟩
      else
        let store2 := store ++ [newRecord]
        match b.notifier with
        | some e => ⟨.notifierError e, store2, true⟩
        | none => ⟨.success, store2, true⟩

/-! ## Rate-limit configuration (`rateLimit`, lines 252-267) -/

/-- Path of the exposed send endpoint. -/
def sendEndpointPath : String := "/change-email-otp/send"

/-- Path of the exposed verify endpoint. -/
def verifyEndpointPath : String := "/change-email-otp/verify"

/-- `pathMatcher` of the first declared rate-limit rule. -/
def sendRatePathMatcher (path : String) : Bool :=
  path == "/send-change-email-otp"

/-- `pathMatcher` of the second declared rate-limit rule. -/
def verifyRatePathMatcher (path : String) : Bool :=
  path == "/verify-change-email-otp"

/-! ## Character and digit lemmas -/

lemma isDigit_not_ws {c : Char} (h : c.isDigit = true) : jsWhitespace c = false := by
  unfold jsWhitespace
  by_cases h1 : c = ' '
  · subst h1; exact absurd h (by decide)
  by_cases h2 : c = '\t'
  · subst h2; exact absurd h (by decide)
  by_cases h3 : c = '\n'
  · subst h3; exact absurd h (by decide)
  by_cases h4 : c = '\r'
  · subst h4; exact absurd h (by decide)
  simp [h1, h2, h3, h4]

lemma isDigit_beq_dash {c : Char} (h : c.isDigit = true) : (c == '-') = false := by
  by_cases h1 : c = '-'
  · subst h1; exact absurd h (by decide)
  · simp [h1]

lemma isDigit_beq_plus {c : Char} (h : c.isDigit = true) : (c == '+') = false := by
  by_cases h1 : c = '+'
  · subst h1; exact absurd h (by decide)
  · simp [h1]

lemma isDigit_ne_colon {c : Char} (h : c.isDigit = true) : c ≠ ':' := by
  intro h1; subst h1; exact absurd h (by decide)

lemma digitChar10_toNat {d : Nat} (hd : d < 10) : (digitChar10 d).toNat = 48 + d := by
  interval_cases d <;> rfl

lemma digitChar10_isDigit {d : Nat} (hd : d < 10) : (digitChar10 d).isDigit = true := by
  interval_cases d <;> decide

lemma digitsVal_append (xs : List Char) (c : Char) :
    digitsVal (xs ++ [c]) = 10 * digitsVal xs + (c.toNat - 48) := by
  simp [digitsVal, List.foldl_append]

lemma digitsVal_rev_map (l : List Nat) (h : ∀ d ∈ l, d < 10) :
    digitsVal ((l.map digitChar10).reverse) = Nat.ofDigits 10 l := by
  induction l with
  | nil => simp [digitsVal]
  | cons d t ih =>
    have hd : d < 10 := h d (List.mem_cons_self d t)
    have ht : ∀ x ∈ t, x < 10 := fun x hx => h x (List.mem_cons_of_mem d hx)
    simp only [List.map_cons, List.reverse_cons, digitsVal_append, ih ht,
      Nat.ofDigits_cons, digitChar10_toNat hd]
    omega

lemma natDigitsAux_eq (fuel n : Nat) (h : n ≤ fuel) : natDigitsAux fuel n = Nat.digits 10 n := by
  induction fuel generalizing n with
  | zero =>
    interval_cases n
    simp [natDigitsAux, Nat.digits_zero]
  | succ fuel ih =>
    cases n with
    | zero => simp [natDigitsAux, Nat.digits_zero]
    | succ n =>
      rw [natDigitsAux, ih ((n + 1) / 10) (by omega),
        Nat.digits_def' (by norm_num : 1 < 10) (Nat.succ_pos n)]

lemma natDigits_eq (n : Nat) : natDigits n = Nat.digits 10 n :=
  natDigitsAux_eq n n le_rfl

lemma natToDecimal_toList (n : Nat) (hn : n ≠ 0) :
    (natToDecimal n).toList = ((Nat.digits 10 n).reverse).map digitChar10 := by
  rw [natToDecimal, if_neg hn, natDigits_eq]
  exact List.toList_asString _

lemma natToDecimal_all_digits (n : Nat) :
    ∀ c ∈ (natToDecimal n).toList, c.isDigit = true := by
  by_cases hn : n = 0
  · subst hn; decide
  · rw [natToDecimal_toList n hn]
    intro c hc
    rw [List.mem_map] at hc
    obtain ⟨d, hd, rfl⟩ := hc
    exact digitChar10_isDigit (Nat.digits_lt_base (by norm_num) (List.mem_reverse.mp hd))

lemma natToDecimal_ne_nil (n : Nat) : (natToDecimal n).toList ≠ [] := by
  by_cases hn : n = 0
  · subst hn; decide
  · rw [natToDecimal_toList n hn]
    simp [Nat.digits_ne_nil_iff_ne_zero.mpr hn]

lemma natToDecimal_no_colon (n : Nat) : ':' ∉ (natToDecimal n).toList := by
  intro hc
  exact isDigit_ne_colon (natToDecimal_all_digits n ':' hc) rfl

lemma natToDecimal_not_empty (n : Nat) : (natToDecimal n).isEmpty = false := by
  rw [Bool.eq_false_iff]
  intro h
  have hempty : natToDecimal n = "" := (String.isEmpty_iff _).mp h
  have hne := natToDecimal_ne_nil n
  rw [hempty] at hne
  exact hne rfl

lemma all_digits_dropWhile_ws (cs : List Char) (h : ∀ c ∈ cs, c.isDigit = true) :
    cs.dropWhile jsWhitespace = cs := by
  cases cs with
  | nil => rfl
  | cons c rest =>
    rw [List.dropWhile_cons, isDigit_not_ws (h c (List.mem_cons_self c rest))]
    simp

lemma all_digits_takeWhile (cs : List Char) (h : ∀ c ∈ cs, c.isDigit = true) :
    cs.takeWhile Char.isDigit = cs := List.takeWhile_eq_self_iff.mpr h

lemma parseIntChars_all_digits (cs : List Char) (hne : cs ≠ [])
    (h : ∀ c ∈ cs, c.isDigit = true) :
    parseIntChars cs = some ((digitsVal cs : Nat) : Int) := by
  cases cs with
  | nil => exact absurd rfl hne
  | cons c rest =>
    have hc : c.isDigit = true := h c (List.mem_cons_self c rest)
    rw [parseIntChars, isDigit_beq_dash hc, isDigit_beq_plus hc]
    simp [parseDigits, all_digits_takeWhile _ h]

lemma parseIntJs_natToDecimal (n : Nat) : parseIntJs (natToDecimal n) = some (n : Int) := by
  by_cases hn : n = 0
  · subst hn; decide
  · have hall := natToDecimal_all_digits n
    have hne := natToDecimal_ne_nil n
    rw [parseIntJs, all_digits_dropWhile_ws _ hall, parseIntChars_all_digits _ hne hall,
      natToDecimal_toList n hn]
    have hlt : ∀ d ∈ Nat.digits 10 n, d < 10 := fun d hd => Nat.digits_lt_base (by norm_num) hd
    rw [List.map_reverse, digitsVal_rev_map _ hlt, Nat.ofDigits_digits]

lemma numToString_ofNat (k : Nat) : numToString (some ((k : Nat) : Int)) = natToDecimal k := by
  simp [numToString, intToStringJs]

/-! ## Split lemmas -/

lemma splitChars_no_sep {sep : Char} {l : List Char} (h : sep ∉ l) :
    splitChars sep l = [l] := by
  induction l with
  | nil => rfl
  | cons c cs ih =>
    have hc : (c == sep) = false := by
      simp only [List.mem_cons, not_or] at h
      simp [beq_eq_false_iff_ne]
      exact fun e => h.1 e.symm
    have hcs : sep ∉ cs := by
      simp only [List.mem_cons, not_or] at h
      exact h.2
    rw [splitChars]
    simp only [hc, Bool.false_eq_true, if_false, ih hcs]

lemma splitChars_sep_split {sep : Char} {a b : List Char} (ha : sep ∉ a) (hb : sep ∉ b) :
    splitChars sep (a ++ sep :: b) = [a, b] := by
  induction a with
  | nil =>
    rw [List.nil_append, splitChars]
    simp [splitChars_no_sep hb]
  | cons c cs ih =>
    have hc : (c == sep) = false := by
      simp only [List.mem_cons, not_or] at ha
      simp [beq_eq_false_iff_ne]
      exact fun e => ha.1 e.symm
    have hcs : sep ∉ cs := by
      simp only [List.mem_cons, not_or] at ha
      exact ha.2
    rw [List.cons_append, splitChars]
    simp only [hc, Bool.false_eq_true, if_false, ih hcs]

lemma toList_append (a b : String) : (a ++ b).toList = a.toList ++ b.toList :=
  String.data_append a b

lemma jsSplit_encode (c a : String) (hc : ':' ∉ c.toList) (ha : ':' ∉ a.toList) :
    jsSplit ':' (c ++ ":" ++ a) = [c, a] := by
  have hl : (c ++ ":" ++ a).toList = c.toList ++ ':' :: a.toList := by
    rw [toList_append, toList_append]
    have h1 : (":" : String).toList = [':'] := rfl
    rw [h1, List.append_assoc]
    rfl
  rw [jsSplit, hl, splitChars_sep_split hc ha]
  rfl

lemma jsSplit_no_colon (c : String) (hc : ':' ∉ c.toList) : jsSplit ':' c = [c] := by
  rw [jsSplit, splitChars_no_sep hc]
  rfl

lemma append_colon_nan (c : String) : c ++ ":" ++ "NaN" = c ++ ":NaN" := by
  rw [← String.toList_inj, toList_append, toList_append, toList_append, List.append_assoc]
  rfl

/-! ## Behaviour of the verify handler -/

/-- Verifying against an unknown identifier reports `INVALID_OTP` and leaves
everything untouched. -/
lemma verify_empty (uid : Nat) (m now : Int) (email otp : String) :
    verifyChangeEmailOTP (some uid) m now email otp [] = ⟨.invalidOtp, [], none⟩ := rfl

/-- The expiry check fires before the attempt and equality checks and mutates
nothing. -/
lemma verify_expired (uid : Nat) (m now : Int) (email otp : String) (store : Store)
    (r : VerificationRecord)
    (hfind : findVerificationValue store ("change-email-otp-" ++ email) = some r)
    (hexp : r.expiresAt < now) :
    verifyChangeEmailOTP (some uid) m now email otp store = ⟨.otpExpired, store, none⟩ := by
  simp only [verifyChangeEmailOTP, hfind, if_pos hexp]

/-- One verify call against the (single) record for the target email, with a
well-formed `code:attempts` value. -/
lemma verify_step (uid i : Nat) (m now e : Int) (email otp c a : String)
    (hc : ':' ∉ c.toList) (ha : ':' ∉ a.toList) (hexp : ¬ e < now) :
    verifyChangeEmailOTP (some uid) m now email otp
        [⟨i, "change-email-otp-" ++ email, c ++ ":" ++ a, e⟩] =
      if (!a.isEmpty) && numGe (parseIntJs a) m then
        ⟨.tooManyAttempts, [], none⟩
      else if c != otp then
        ⟨.invalidOtp, [⟨i, "change-email-otp-" ++ email,
            c ++ ":" ++ numToString (numAddOne (parseIntJs a)), e⟩], none⟩
      else
        ⟨.success, [], some ⟨uid, email, true⟩⟩ := by
  have hfind : findVerificationValue
      [(⟨i, "change-email-otp-" ++ email, c ++ ":" ++ a, e⟩ : VerificationRecord)]
      ("change-email-otp-" ++ email) =
      some ⟨i, "change-email-otp-" ++ email, c ++ ":" ++ a, e⟩ := by
    simp [findVerificationValue]
  simp only [verifyChangeEmailOTP, hfind, if_neg hexp, jsSplit_encode c a hc ha,
    List.headD_cons, List.getElem?_cons_succ, List.getElem?_cons_zero,
    truthyOptStr, parseIntOpt, deleteVerificationValue, updateVerificationValue,
    List.filter_cons, List.filter_nil, List.map_cons, List.map_nil,
    bne_self_eq_false, beq_self_eq_true, if_true, if_false, Bool.false_eq_true]

/-- One verify call against a record whose value has no `:` (legacy record
without an attempt counter): the attempt-exhaustion check is skipped, and a
mismatch writes `NaN` as the attempt field. -/
lemma verify_step_nocolon (uid i : Nat) (m now e : Int) (email otp c : String)
    (hc : ':' ∉ c.toList) (hexp : ¬ e < now) :
    verifyChangeEmailOTP (some uid) m now email otp
        [⟨i, "change-email-otp-" ++ email, c, e⟩] =
      if c != otp then
        ⟨.invalidOtp, [⟨i, "change-email-otp-" ++ email, c ++ ":NaN", e⟩], none⟩
      else
        ⟨.success, [], some ⟨uid, email, true⟩⟩ := by
  have hfind : findVerificationValue
      [(⟨i, "change-email-otp-" ++ email, c, e⟩ : VerificationRecord)]
      ("change-email-otp-" ++ email) =
      some ⟨i, "change-email-otp-" ++ email, c, e⟩ := by
    simp [findVerificationValue]
  simp only [verifyChangeEmailOTP, hfind, if_neg hexp, jsSplit_no_colon c hc,
    List.headD_cons, List.getElem?_cons_succ, List.getElem?_nil,
    truthyOptStr, parseIntOpt, numAddOne, numToString, append_colon_nan,
    deleteVerificationValue, updateVerificationValue,
    List.filter_cons, List.filter_nil, List.map_cons, List.map_nil,
    bne_self_eq_false, beq_self_eq_true, if_true, if_false,
    Bool.false_and, Bool.false_eq_true]

/-- A wrong-code submission against a record whose attempt counter is the
decimal numeral `k` with `k < maxAttempts` yields `INVALID_OTP` and bumps the
counter to `k + 1`. -/
lemma verify_counter_wrong (uid i m : Nat) (now e : Int) (email otp c : String) (k : Nat)
    (hc : ':' ∉ c.toList) (hexp : ¬ e < now) (hk : k < m) (hne : c ≠ otp) :
    verifyChangeEmailOTP (some uid) (m : Int) now email otp
        [⟨i, "change-email-otp-" ++ email, c ++ ":" ++ natToDecimal k, e⟩] =
      ⟨.invalidOtp,
        [⟨i, "change-email-otp-" ++ email, c ++ ":" ++ natToDecimal (k + 1), e⟩],
        none⟩ := by
  rw [verify_step uid i (m : Int) now e email otp c (natToDecimal k) hc
    (natToDecimal_no_colon k) hexp, parseIntJs_natToDecimal, natToDecimal_not_empty]
  have hg : numGe (some ((k : Nat) : Int)) (m : Int) = false := by
    simp only [numGe, decide_eq_false_iff_not, not_le]
    exact_mod_cast hk
  have hnum : numToString (numAddOne (some ((k : Nat) : Int))) = natToDecimal (k + 1) := by
    have hcast : ((k : Nat) : Int) + 1 = (((k + 1 : Nat)) : Int) := by push_cast; ring
    rw [numAddOne, hcast, numToString_ofNat]
  rw [hg, hnum]
  simp [bne_iff_ne, hne]

/-- Any submission (wrong or correct) against a record whose attempt counter is
the decimal numeral `k` with `maxAttempts ≤ k` yields `TOO_MANY_ATTEMPTS` and
deletes the record. -/
lemma verify_counter_exhausted (uid i m : Nat) (now e : Int) (email otp c : String) (k : Nat)
    (hc : ':' ∉ c.toList) (hexp : ¬ e < now) (hk : m ≤ k) :
    verifyChangeEmailOTP (some uid) (m : Int) now email otp
        [⟨i, "change-email-otp-" ++ email, c ++ ":" ++ natToDecimal k, e⟩] =
      ⟨.tooManyAttempts, [], none⟩ := by
  rw [verify_step uid i (m : Int) now e email otp c (natToDecimal k) hc
    (natToDecimal_no_colon k) hexp, parseIntJs_natToDecimal, natToDecimal_not_empty]
  have hg : numGe (some ((k : Nat) : Int)) (m : Int) = true := by
    simp only [numGe, decide_eq_true_eq]
    exact_mod_cast hk
  rw [hg]
  simp

/-- Iterating wrong-code submissions: as long as the counter stays below
`maxAttempts`, each of the `n` submissions reports `INVALID_OTP` and the
counter advances by one per submission. -/
lemma runWrong_chain (uid i m : Nat) (now e : Int) (email otp c : String)
    (hc : ':' ∉ c.toList) (hexp : ¬ e < now) (hne : c ≠ otp)
    (n k : Nat) (h : k + n ≤ m) :
    runWrongSubmissions (some uid) (m : Int) now email otp n
        [⟨i, "change-email-otp-" ++ email, c ++ ":" ++ natToDecimal k, e⟩] =
      (List.replicate n .invalidOtp,
        [⟨i, "change-email-otp-" ++ email, c ++ ":" ++ natToDecimal (k + n), e⟩]) := by
  induction n generalizing k with
  | zero => simp [runWrongSubmissions]
  | succ n ih =>
    rw [runWrongSubmissions]
    rw [verify_counter_wrong uid i m now e email otp c k hc hexp (by omega) hne]
    have harith : k + 1 + n = k + (n + 1) := by omega
    rw [show (⟨.invalidOtp,
        [⟨i, "change-email-otp-" ++ email, c ++ ":" ++ natToDecimal (k + 1), e⟩],
        none⟩ : VerifyOutcome).store =
      [⟨i, "change-email-otp-" ++ email, c ++ ":" ++ natToDecimal (k + 1), e⟩] from rfl]
    rw [ih (k + 1) (by omega), harith]
    rfl

/-! ## Claims -/

/-- Claim C1, counterexample: with `maxAttempts = 3` and a fresh record
(attempt counter 0), the third wrong-code submission still returns
`INVALID_OTP` (with the counter updated to 3) and leaves the record in the
store — it does not return `TOO_MANY_ATTEMPTS` and does not delete the record,
contrary to the claim. -/
theorem third_wrong_submission_counterexample :
    runWrongSubmissions (some 7) 3 0 "new@example.com" "000000" 3
        [⟨0, "change-email-otp-new@example.com", "111111:0", 100⟩] =
      ([.invalidOtp, .invalidOtp, .invalidOtp],
        [⟨0, "change-email-otp-new@example.com", "111111:3", 100⟩]) := by decide

/-- Claim C1, amended: the attempt limit is enforced one submission later than
claimed. A wrong-code submission with stored counter `k < maxAttempts` returns
`INVALID_OTP` and bumps the counter to `k + 1` (so `maxAttempts` consecutive
wrong submissions all return `INVALID_OTP`, driving the counter from 0 up to
`maxAttempts` with the record still present); only the `(maxAttempts + 1)`-th
submission — with any code, wrong or correct — returns `TOO_MANY_ATTEMPTS` and
deletes the record. -/
theorem attempt_limit_off_by_one (uid i m : Nat) (now e : Int) (email otp c : String)
    (hc : ':' ∉ c.toList) (hexp : ¬ e < now) (hne : c ≠ otp) :
    (∀ k : Nat, k < m →
      verifyChangeEmailOTP (some uid) (m : Int) now email otp
          [⟨i, "change-email-otp-" ++ email, c ++ ":" ++ natToDecimal k, e⟩] =
        ⟨.invalidOtp,
          [⟨i, "change-email-otp-" ++ email, c ++ ":" ++ natToDecimal (k + 1), e⟩],
          none⟩) ∧
    (∀ (k : Nat) (otp2 : String), m ≤ k →
      verifyChangeEmailOTP (some uid) (m : Int) now email otp2
          [⟨i, "change-email-otp-" ++ email, c ++ ":" ++ natToDecimal k, e⟩] =
        ⟨.tooManyAttempts, [], none⟩) ∧
    runWrongSubmissions (some uid) (m : Int) now email otp m
        [⟨i, "change-email-otp-" ++ email, c ++ ":" ++ natToDecimal 0, e⟩] =
      (List.replicate m .invalidOtp,
        [⟨i, "change-email-otp-" ++ email, c ++ ":" ++ natToDecimal m, e⟩]) := by
  refine ⟨fun k hk => verify_counter_wrong uid i m now e email otp c k hc hexp hk hne,
    fun k otp2 hk => verify_counter_exhausted uid i m now e email otp2 c k hc hexp hk,
    ?_⟩
  have h := runWrong_chain uid i m now e email otp c hc hexp hne m 0 (by omega)
  simpa using h

/-- Witness for `attempt_limit_off_by_one` at `maxAttempts = 3`: three wrong
submissions all return `INVALID_OTP` and leave the record with counter 3. -/
theorem attempt_limit_off_by_one_witness :
    runWrongSubmissions (some 7) 3 0 "new@example.com" "000000" 3
        [⟨0, "change-email-otp-new@example.com", "111111" ++ ":" ++ natToDecimal 0, 100⟩] =
      ([.invalidOtp, .invalidOtp, .invalidOtp],
        [⟨0, "change-email-otp-new@example.com", "111111" ++ ":" ++ natToDecimal 3, 100⟩]) :=
  (attempt_limit_off_by_one 7 0 3 0 100 "new@example.com" "000000" "111111"
    (by decide) (by decide) (by decide)).2.2

/-- Claim C2, counterexample: against a live record whose value has no `:`
(missing attempt field), a wrong-code submission stores `"123456:NaN"`, not
`"123456:1"` — the attempt counter is not updated to 1 as claimed, because the
handler computes `Number.parseInt(undefined, 10) + 1 = NaN`. -/
theorem missing_attempts_nan_counterexample :
    verifyChangeEmailOTP (some 7) 3 0 "a@b.com" "000000"
        [⟨0, "change-email-otp-a@b.com", "123456", 100⟩] =
      ⟨.invalidOtp, [⟨0, "change-email-otp-a@b.com", "123456:NaN", 100⟩], none⟩ ∧
    verifyChangeEmailOTP (some 7) 3 0 "a@b.com" "000000"
        [⟨0, "change-email-otp-a@b.com", "123456", 100⟩] ≠
      ⟨.invalidOtp, [⟨0, "change-email-otp-a@b.com", "123456:1", 100⟩], none⟩ := by
  decide

/-- Claim C2, amended: the attempt-exhaustion check does treat a missing or
non-numeric attempt field as not exhausted (like 0), but a failed code
comparison against such a record stores the attempt field `"NaN"`, not 1; only
records whose attempt field is a decimal numeral `k < maxAttempts` have the
counter advanced by exactly 1 per failed comparison. -/
theorem failed_attempt_counter_update (uid i m : Nat) (now e : Int) (email otp c : String)
    (hc : ':' ∉ c.toList) (hexp : ¬ e < now) (hne : c ≠ otp) :
    (verifyChangeEmailOTP (some uid) (m : Int) now email otp
        [⟨i, "change-email-otp-" ++ email, c, e⟩] =
      ⟨.invalidOtp, [⟨i, "change-email-otp-" ++ email, c ++ ":NaN", e⟩], none⟩) ∧
    (∀ a : String, ':' ∉ a.toList → parseIntJs a = none →
      verifyChangeEmailOTP (some uid) (m : Int) now email otp
          [⟨i, "change-email-otp-" ++ email, c ++ ":" ++ a, e⟩] =
        ⟨.invalidOtp, [⟨i, "change-email-otp-" ++ email, c ++ ":NaN", e⟩], none⟩) ∧
    (∀ k : Nat, k < m →
      verifyChangeEmailOTP (some uid) (m : Int) now email otp
          [⟨i, "change-email-otp-" ++ email, c ++ ":" ++ natToDecimal k, e⟩] =
        ⟨.invalidOtp,
          [⟨i, "change-email-otp-" ++ email, c ++ ":" ++ natToDecimal (k + 1), e⟩],
          none⟩) := by
  refine ⟨?_, ?_, fun k hk => verify_counter_wrong uid i m now e email otp c k hc hexp hk hne⟩
  · rw [verify_step_nocolon uid i (m : Int) now e email otp c hc hexp]
    simp [bne_iff_ne, hne]
  · intro a ha hpa
    rw [verify_step uid i (m : Int) now e email otp c a hc ha hexp, hpa]
    simp [numGe, numAddOne, numToString, append_colon_nan, bne_iff_ne, hne]

/-- Witness for `failed_attempt_counter_update`: a record with non-numeric
attempt field `"abc"` gets `"NaN"` stored after a wrong-code submission. -/
theorem failed_attempt_counter_update_witness :
    verifyChangeEmailOTP (some 7) 3 0 "a@b.com" "000000"
        [⟨0, "change-email-otp-a@b.com", "123456" ++ ":" ++ "abc", 100⟩] =
      ⟨.invalidOtp, [⟨0, "change-email-otp-a@b.com", "123456" ++ ":NaN", 100⟩], none⟩ :=
  (failed_attempt_counter_update 7 0 3 0 100 "a@b.com" "000000" "123456"
    (by decide) (by decide) (by decide)).2.1 "abc" (by decide) (by decide)

/-- Claim C3: for any stored record found for the target email whose
`expiresAt` lies in the past, the verify handler reports `OTP_EXPIRED` —
never `TOO_MANY_ATTEMPTS` or `INVALID_OTP`, whatever the attempt field says —
and leaves the store unmodified and the user untouched: the expiry check runs
right after the existence check and before the attempt-exhaustion and
code-equality checks. -/
theorem expired_record_reports_expired (uid : Nat) (m now : Int) (email otp : String)
    (store : Store) (r : VerificationRecord)
    (hfind : findVerificationValue store ("change-email-otp-" ++ email) = some r)
    (hexp : r.expiresAt < now) :
    verifyChangeEmailOTP (some uid) m now email otp store = ⟨.otpExpired, store, none⟩ :=
  verify_expired uid m now email otp store r hfind hexp

/-- Witness for `expired_record_reports_expired`: an expired record whose
counter (9) is far beyond `maxAttempts = 3` still reports `OTP_EXPIRED` and is
left in place. -/
theorem expired_record_reports_expired_witness :
    verifyChangeEmailOTP (some 7) 3 200 "a@b.com" "123456"
        [⟨0, "change-email-otp-a@b.com", "123456:9", 100⟩] =
      ⟨.otpExpired, [⟨0, "change-email-otp-a@b.com", "123456:9", 100⟩], none⟩ :=
  expired_record_reports_expired 7 3 200 "a@b.com" "123456"
    [⟨0, "change-email-otp-a@b.com", "123456:9", 100⟩]
    ⟨0, "change-email-otp-a@b.com", "123456:9", 100⟩ (by decide) (by decide)

/-- Claim C4: requesting a change twice for the same target email, with the
store reporting a creation conflict on the second call, replaces the first
record with the second exactly once (delete by identifier, then recreate):
afterwards only the second record is in the store, the first code fails with
`INVALID_OTP`, the second code verifies successfully, and a failure of the
retried creation propagates as a fatal storage error with the store left
holding no record for the identifier. -/
theorem send_replace_on_conflict (uid f1 f2 : Nat) (m e1 e2 now : Int)
    (email otp1 otp2 : String) (dir : String → Option Nat)
    (hdir : dir email = none) (hne : otp1 ≠ otp2) (h2 : ':' ∉ otp2.toList)
    (hexp : ¬ e2 < now) (hm : 0 < m) :
    sendChangeEmailOTP (some uid) dir otp1 e1 email f1 ⟨false, none, none⟩ [] =
      ⟨.success, [⟨f1, "change-email-otp-" ++ email, otp1 ++ ":0", e1⟩], true⟩ ∧
    sendChangeEmailOTP (some uid) dir otp2 e2 email f2 ⟨true, none, none⟩
        [⟨f1, "change-email-otp-" ++ email, otp1 ++ ":0", e1⟩] =
      ⟨.success, [⟨f2, "change-email-otp-" ++ email, otp2 ++ ":0", e2⟩], true⟩ ∧
    (verifyChangeEmailOTP (some uid) m now email otp1
        [⟨f2, "change-email-otp-" ++ email, otp2 ++ ":0", e2⟩]).result = .invalidOtp ∧
    verifyChangeEmailOTP (some uid) m now email otp2
        [⟨f2, "change-email-otp-" ++ email, otp2 ++ ":0", e2⟩] =
      ⟨.success, [], some ⟨uid, email, true⟩⟩ ∧
    (∀ err : String,
      sendChangeEmailOTP (some uid) dir otp2 e2 email f2 ⟨true, some err, none⟩
          [⟨f1, "change-email-otp-" ++ email, otp1 ++ ":0", e1⟩] =
        ⟨.storageError err, [], false⟩) := by
  have hv : otp2 ++ ":0" = otp2 ++ ":" ++ "0" := by
    rw [← String.toList_inj, toList_append, toList_append, toList_append, List.append_assoc]
    rfl
  have hstep := verify_step uid f2 m now e2 email otp1 otp2 "0" h2 (by decide) hexp
  have hstep2 := verify_step uid f2 m now e2 email otp2 otp2 "0" h2 (by decide) hexp
  have hge : numGe (parseIntJs "0") m = false := by
    have : parseIntJs "0" = some 0 := by decide
    rw [this]
    simp only [numGe, decide_eq_false_iff_not, not_le]
    omega
  refine ⟨?_, ?_, ?_, ?_, ?_⟩
  · simp [sendChangeEmailOTP, hdir]
  · simp [sendChangeEmailOTP, hdir, deleteVerificationByIdentifier]
  · have hne2 : otp2 ≠ otp1 := Ne.symm hne
    rw [hv, hstep, hge]
    simp [bne_iff_ne, hne2]
  · rw [hv, hstep2, hge]
    simp
  · intro err
    simp [sendChangeEmailOTP, hdir, deleteVerificationByIdentifier]

/-- Witness for `send_replace_on_conflict` at concrete codes `111111` and
`222222`: the second code verifies against the replaced store. -/
theorem send_replace_on_conflict_witness :
    verifyChangeEmailOTP (some 7) 3 0 "new@example.com" "222222"
        [⟨1, "change-email-otp-new@example.com", "222222" ++ ":0", 100⟩] =
      ⟨.success, [], some ⟨7, "new@example.com", true⟩⟩ :=
  (send_replace_on_conflict 7 0 1 3 50 100 0 "new@example.com" "111111" "222222"
    (fun _ => none) rfl (by decide) (by decide) (by decide) (by decide)).2.2.2.1

/-- Claim C5: a record is single-use. Verifying with the correct code against
the live record for the target email succeeds, deletes the record in the same
operation, and updates the user to the target email with
`emailVerified = true`; a second verification with the same (now-deleted) code
finds no record and returns `INVALID_OTP`, never success. -/
theorem verify_single_use (uid i m : Nat) (now now2 e : Int) (email otp : String) (k : Nat)
    (hc : ':' ∉ otp.toList) (hexp : ¬ e < now) (hk : k < m) :
    verifyChangeEmailOTP (some uid) (m : Int) now email otp
        [⟨i, "change-email-otp-" ++ email, otp ++ ":" ++ natToDecimal k, e⟩] =
      ⟨.success, [], some ⟨uid, email, true⟩⟩ ∧
    verifyChangeEmailOTP (some uid) (m : Int) now2 email otp [] =
      ⟨.invalidOtp, [], none⟩ := by
  constructor
  · rw [verify_step uid i (m : Int) now e email otp otp (natToDecimal k) hc
      (natToDecimal_no_colon k) hexp, parseIntJs_natToDecimal, natToDecimal_not_empty]
    have hg : numGe (some ((k : Nat) : Int)) (m : Int) = false := by
      simp only [numGe, decide_eq_false_iff_not, not_le]
      exact_mod_cast hk
    rw [hg]
    simp
  · exact verify_empty uid (m : Int) now2 email otp

/-- Witness for `verify_single_use`: code `123456` succeeds once against its
fresh record, and a replay against the emptied store is rejected. -/
theorem verify_single_use_witness :
    verifyChangeEmailOTP (some 7) 3 0 "a@b.com" "123456"
        [⟨0, "change-email-otp-a@b.com", "123456" ++ ":" ++ natToDecimal 0, 100⟩] =
      ⟨.success, [], some ⟨7, "a@b.com", true⟩⟩ ∧
    verifyChangeEmailOTP (some 7) 3 0 "a@b.com" "123456" [] =
      ⟨.invalidOtp, [], none⟩ :=
  verify_single_use 7 0 3 0 0 100 "a@b.com" "123456" 0 (by decide) (by decide) (by decide)

/-- Claim C6: when the user directory already holds a user for the target
email, the send handler reports `EMAIL_ALREADY_EXISTS`, leaves the
verification store unchanged, and never invokes the notifier — whatever the
store-failure behaviour would have been. -/
theorem send_email_exists (uid u : Nat) (dir : String → Option Nat) (otp : String)
    (e : Int) (email : String) (f : Nat) (b : SendBehavior) (store : Store)
    (hdir : dir email = some u) :
    sendChangeEmailOTP (some uid) dir otp e email f b store =
      ⟨.emailAlreadyExists, store, false⟩ := by
  simp [sendChangeEmailOTP, hdir]

/-- Witness for `send_email_exists` with a directory owning `taken@x.com`. -/
theorem send_email_exists_witness :
    sendChangeEmailOTP (some 7) (fun _ => some 9) "111111" 100 "taken@x.com" 0
        ⟨false, none, none⟩ [] = ⟨.emailAlreadyExists, [], false⟩ :=
  send_email_exists 7 9 (fun _ => some 9) "111111" 100 "taken@x.com" 0
    ⟨false, none, none⟩ [] rfl

/-- Claim C7: when the notifier callback fails after the record was created,
the record is not rolled back — it stays in the store and remains verifiable
with the generated code — and the notifier's error propagates untranslated
(the outcome carries the notifier's own error). -/
theorem send_notifier_failure_keeps_record (uid f : Nat) (m e now : Int)
    (email otp err : String) (dir : String → Option Nat)
    (hdir : dir email = none) (hc : ':' ∉ otp.toList) (hexp : ¬ e < now) (hm : 0 < m) :
    sendChangeEmailOTP (some uid) dir otp e email f ⟨false, none, some err⟩ [] =
      ⟨.notifierError err, [⟨f, "change-email-otp-" ++ email, otp ++ ":0", e⟩], true⟩ ∧
    verifyChangeEmailOTP (some uid) m now email otp
        [⟨f, "change-email-otp-" ++ email, otp ++ ":0", e⟩] =
      ⟨.success, [], some ⟨uid, email, true⟩⟩ := by
  have hv : otp ++ ":0" = otp ++ ":" ++ "0" := by
    rw [← String.toList_inj, toList_append, toList_append, toList_append, List.append_assoc]
    rfl
  constructor
  · simp [sendChangeEmailOTP, hdir]
  · rw [hv, verify_step uid f m now e email otp otp "0" hc (by decide) hexp]
    have hge : numGe (parseIntJs "0") m = false := by
      have h0 : parseIntJs "0" = some 0 := by decide
      rw [h0]
      simp only [numGe, decide_eq_false_iff_not, not_le]
      omega
    rw [hge]
    simp

/-- Witness for `send_notifier_failure_keeps_record`: the `"smtp down"` error
propagates while the created record still verifies. -/
theorem send_notifier_failure_keeps_record_witness :
    sendChangeEmailOTP (some 7) (fun _ => none) "111111" 100 "new@example.com" 0
        ⟨false, none, some "smtp down"⟩ [] =
      ⟨.notifierError "smtp down",
        [⟨0, "change-email-otp-new@example.com", "111111" ++ ":0", 100⟩], true⟩ ∧
    verifyChangeEmailOTP (some 7) 3 0 "new@example.com" "111111"
        [⟨0, "change-email-otp-new@example.com", "111111" ++ ":0", 100⟩] =
      ⟨.success, [], some ⟨7, "new@example.com", true⟩⟩ :=
  send_notifier_failure_keeps_record 7 0 3 100 0 "new@example.com" "111111" "smtp down"
    (fun _ => none) rfl (by decide) (by decide) (by decide)

/-- Claim C8: for every configured length `L` and every random draw,
`generateOtp` returns a string of exactly `L` decimal-digit characters — the
`padStart` zero-padding guards the length even when the draw comes up short or
starts with zeros. -/
theorem generateOtp_length_digits (L : Nat) (ds : List (Fin 10)) :
    (generateOtp L ds).length = L ∧
    (generateOtp L ds).toList.all Char.isDigit = true := by
  have hlist : (generateOtp L ds).toList =
      List.replicate (L - (generateRandomString L ds).length) '0' ++
        ((ds.take L).map (fun d => digitChar10 d.val)) := by
    rw [generateOtp, padStart, toList_append, List.toList_asString, generateRandomString,
      List.toList_asString]
  have hslen : (generateRandomString L ds).length = min L ds.length := by
    rw [generateRandomString, List.length_asString, List.length_map, List.length_take]
  constructor
  · have hfull : (generateOtp L ds).length = (generateOtp L ds).toList.length := rfl
    rw [hfull, hlist, List.length_append, List.length_replicate, List.length_map,
      List.length_take, hslen]
    omega
  · rw [hlist, List.all_eq_true]
    intro c hc
    rcases List.mem_append.mp hc with h | h
    · rw [List.eq_of_mem_replicate h]
      decide
    · obtain ⟨d, _, rfl⟩ := List.mem_map.mp h
      exact digitChar10_isDigit d.isLt

/-- Witness for `generateOtp_length_digits` at `L = 6` with a two-digit draw:
the result is zero-padded to six digit characters. -/
theorem generateOtp_length_digits_witness :
    (generateOtp 6 [⟨4, by omega⟩, ⟨2, by omega⟩]).length = 6 ∧
    (generateOtp 6 [⟨4, by omega⟩, ⟨2, by omega⟩]).toList.all Char.isDigit = true :=
  generateOtp_length_digits 6 [⟨4, by omega⟩, ⟨2, by omega⟩]

/-- Claim C9: both declared rate-limit `pathMatcher`s return `false` on both
exposed endpoint paths — the matchers test `"/send-change-email-otp"` and
`"/verify-change-email-otp"` while the endpoints are mounted at
`"/change-email-otp/send"` and `"/change-email-otp/verify"`, so the declared
limits never apply to either endpoint. -/
theorem rate_limit_matchers_never_match :
    sendRatePathMatcher sendEndpointPath = false ∧
    sendRatePathMatcher verifyEndpointPath = false ∧
    verifyRatePathMatcher sendEndpointPath = false ∧
    verifyRatePathMatcher verifyEndpointPath = false := by decide

/-- Claim C10: a request to change to an email for which the directory lookup
finds the caller's own user record is rejected with `EMAIL_ALREADY_EXISTS`
like any other hit — there is no exemption for the caller's own account — and
no verification record is created and no notification dispatched. -/
theorem send_own_email_rejected (uid : Nat) (dir : String → Option Nat) (otp : String)
    (e : Int) (email : String) (f : Nat) (b : SendBehavior) (store : Store)
    (hdir : dir email = some uid) :
    sendChangeEmailOTP (some uid) dir otp e email f b store =
      ⟨.emailAlreadyExists, store, false⟩ := by
  simp [sendChangeEmailOTP, hdir]

/-- Witness for `send_own_email_rejected`: caller 7 asks to change to the
address the directory maps back to user 7. -/
theorem send_own_email_rejected_witness :
    sendChangeEmailOTP (some 7) (fun _ => some 7) "111111" 100 "me@x.com" 0
        ⟨false, none, none⟩ [] = ⟨.emailAlreadyExists, [], false⟩ :=
  send_own_email_rejected 7 (fun _ => some 7) "111111" 100 "me@x.com" 0
    ⟨false, none, none⟩ [] rfl

end ChangeEmailOtp
